import Mathlib

/-!
Verification of the vimeo_uploader pipeline driver (src/core/driver.py)
against its natural-language specification.

The driver is embedded shallowly: the file system is an existence
predicate on paths, each external collaborator invocation (download
client, transcode engine, upload client) is recorded in a call trace,
and the success or failure of each collaborator is supplied by an
environment record.  `Driver.process` returns the trace of collaborator
calls it made together with its outcome (normal return, or the
propagated exception).
-/

/-- Credentials for the remote upload service (model.config.VimeoConfiguration). -/
structure VimeoConfiguration where
  token : String
  key : String
  secret : String
deriving DecidableEq, Repr

/-- Local working-directory settings (model.config.AppDirectoryConfiguration). -/
structure AppDirectoryConfiguration where
  videos_dir : String
deriving DecidableEq, Repr

/-- One user-requested processing job (model.config.VideoConfiguration).
Timestamps are already converted to integer seconds by the request builder. -/
structure VideoConfiguration where
  video_id : String
  start_time_in_sec : Nat
  end_time_in_sec : Nat
  image_url : Option String
  resolution : String
  video_title : Option String
deriving DecidableEq, Repr

/-- The pipeline driver's fields (core.driver.Driver.__init__).  In Python the
`app_directory_config` field may hold None (main passes None explicitly), so it
is embedded as an Option. -/
structure Driver where
  vimeo_config : VimeoConfiguration
  app_directory_config : Option AppDirectoryConfiguration
deriving DecidableEq, Repr

/-- Exceptions the pipeline can raise. -/
inductive PError where
  /-- Attribute access on None (None.videos_dir). -/
  | attributeError
  /-- pytube.exceptions.PytubeError from the download client. -/
  | pytubeError
  /-- ffmpeg failure from the transcode engine. -/
  | ffmpegError
  /-- vimeo.exceptions.VideoUploadFailure from the upload client. -/
  | videoUploadFailure
  /-- TypeError from concatenating None with a string. -/
  | typeError
  /-- failure of the transcode-status poll (client.get or the json field access). -/
  | pollError
  /-- failure raised by client.upload_picture. -/
  | pictureError
deriving DecidableEq, Repr

/-- One collaborator invocation, with the arguments the driver passed. -/
inductive Call where
  /-- os.mkdir on the per-video working directory. -/
  | mkdir (dir : String)
  /-- core.driver.download_youtube_resources. -/
  | download_youtube_resources (download_path url video_name audio_name resolution : String)
  /-- core.driver.join_resource. -/
  | join_resource (video_path audio_path output_path : String)
  /-- core.driver.trim_resource: the transcode engine with seek offset ss and duration t. -/
  | trim_resource (input_path output_path : String) (ss t : Nat)
  /-- client.upload inside upload_video_to_vimeo. -/
  | upload (video_path video_title : String)
  /-- client.get polling the transcode status after a successful upload. -/
  | get_transcode_status (uri : String)
  /-- client.upload_picture attaching and activating the thumbnail. -/
  | upload_picture (uri image : String)
deriving DecidableEq, Repr

/-- The environment of one `process` run: which paths exist on local storage,
the current date (as formatted by strftime MM/DD/YY), and the outcome each
external collaborator would have if invoked. -/
structure Env where
  fs : String → Bool
  today : String
  download_ok : Bool
  join_ok : Bool
  trim_ok : Bool
  upload_ok : Bool
  upload_uri : Option String
  get_ok : Bool
  picture_ok : Bool

/-- os.path.join for the simple dir/name case used by the driver. -/
def path_join (a b : String) : String := a ++ "/" ++ b

/-- Modelled from the spec: get_youtube_url in core/util.py is absent from src;
it normalizes a bare video identifier into the canonical watch URL by
prefixing a fixed base (spec section 4.2). -/
def get_youtube_url (video_id : String) : String :=
  "https://www.youtube.com/watch?v=" ++ video_id

/-- Splitting a character list at every occurrence of a separator, the str.split
behaviour used by the timestamp conversion. -/
def split_chars (sep : Char) : List Char → List (List Char)
  | [] => [[]]
  | c :: cs =>
    match split_chars sep cs with
    | [] => [[c]]
    | r :: rs => if c = sep then [] :: r :: rs else (c :: r) :: rs

/-- Parsing a non-empty all-digit character list as a natural number, the
int(...) behaviour used by the timestamp conversion; any other list is a
parsing error. -/
def chars_to_nat? (cs : List Char) : Option Nat :=
  if cs ≠ [] ∧ cs.all Char.isDigit then
    some (cs.foldl (fun acc c => acc * 10 + (c.toNat - 48)) 0)
  else none

/-- Modelled from the spec: the timestamp conversion of the video-request
builder (core/util.py, absent from src).  HH:MM:SS-like strings map to
hours*3600 + minutes*60 + seconds; malformed input is a parsing error,
embedded as none (spec sections 4.2 and 8). -/
def get_seconds (timestamp : String) : Option Nat :=
  match split_chars ':' timestamp.data with
  | [h, m, s] =>
    match chars_to_nat? h, chars_to_nat? m, chars_to_nat? s with
    | some hh, some mm, some ss => some (hh * 3600 + mm * 60 + ss)
    | _, _, _ => none
  | _ => none

/-- The title sanitization at the top of Driver.process: if title is None or
falsy (empty), replace it with "(CW) " followed by the current date. -/
def resolve_title (video_title : Option String) (today : String) : String :=
  match video_title with
  | none => "(CW) " ++ today
  | some t => if t = "" then "(CW) " ++ today else t

/-- video_stream_name as computed by Driver.process. -/
def video_stream_name (resolution : String) : String :=
  "video_stream_" ++ resolution ++ ".mp4"

/-- audio_stream_name as computed by Driver.process. -/
def audio_stream_name (resolution : String) : String :=
  "audio_stream_" ++ resolution ++ ".mp3"

/-- combined_video_name as computed by Driver.process. -/
def combined_video_name (resolution : String) : String :=
  "combined_" ++ resolution ++ ".mp4"

/-- trimmed_video_name as computed by Driver.process: the suffix
f-string start_end prepended to the resolution. -/
def trimmed_video_name (s e : Nat) (resolution : String) : String :=
  toString s ++ "_" ++ toString e ++ "_" ++ resolution ++ ".mp4"

/-- The four artifact paths (video stream, audio stream, combined, trimmed)
computed by Driver.process lines 82-97 from the base videos directory and the
request. -/
def artifact_paths (base : String) (vc : VideoConfiguration) :
    String × String × String × String :=
  (path_join (path_join base vc.video_id) (video_stream_name vc.resolution),
   path_join (path_join base vc.video_id) (audio_stream_name vc.resolution),
   path_join (path_join base vc.video_id) (combined_video_name vc.resolution),
   path_join (path_join base vc.video_id)
     (trimmed_video_name vc.start_time_in_sec vc.end_time_in_sec vc.resolution))

/-- Sequencing of two pipeline stages: if the first raised, its exception
propagates and the second stage never runs; otherwise the traces concatenate. -/
def pipe (r k : List Call × Except PError Unit) : List Call × Except PError Unit :=
  match r.2 with
  | Except.error e => (r.1, Except.error e)
  | Except.ok _ => (r.1 ++ k.1, k.2)

/-- Download stage (Driver.process lines 99-107): invoked when either stream
artifact is missing; a download failure is logged and re-raised. -/
def download_stage (env : Env) (video_dir url vname aname res vsp asp : String) :
    List Call × Except PError Unit :=
  if !env.fs vsp || !env.fs asp then
    ([Call.download_youtube_resources video_dir url vname aname res],
     if env.download_ok then Except.ok () else Except.error PError.pytubeError)
  else ([], Except.ok ())

/-- Merge stage (Driver.process lines 112-118): invoked when the combined
artifact is missing. -/
def join_stage (env : Env) (vsp asp cvp : String) : List Call × Except PError Unit :=
  if !env.fs cvp then
    ([Call.join_resource vsp asp cvp],
     if env.join_ok then Except.ok () else Except.error PError.ffmpegError)
  else ([], Except.ok ())

/-- Trim stage (Driver.process lines 120-127 and trim_resource lines 191-211):
invoked when the trimmed artifact is missing.  The transcode engine receives
ss = start_time_in_sec and t = end_time_in_sec, exactly as the source passes
them. -/
def trim_stage (env : Env) (cvp tvp : String) (s e : Nat) :
    List Call × Except PError Unit :=
  if !env.fs tvp then
    ([Call.trim_resource cvp tvp s e],
     if env.trim_ok then Except.ok () else Except.error PError.ffmpegError)
  else ([], Except.ok ())

/-- upload_video_to_vimeo (lines 214-243): client.upload, on failure log and
re-raise; then poll the transcode status via client.get on uri ++ a query
string (a None uri would raise a TypeError there) and return the uri. -/
def upload_video_to_vimeo (env : Env) (video_path video_title : String) :
    List Call × Except PError String :=
  if env.upload_ok then
    match env.upload_uri with
    | some uri =>
      ([Call.upload video_path video_title, Call.get_transcode_status uri],
       if env.get_ok then Except.ok uri else Except.error PError.pollError)
    | none => ([Call.upload video_path video_title], Except.error PError.typeError)
  else
    ([Call.upload video_path video_title], Except.error PError.videoUploadFailure)

/-- Upload and thumbnail stages (Driver.process lines 129-144): upload the
trimmed artifact, then attach the thumbnail when the returned uri is not None
and the image path is truthy. -/
def upload_and_thumbnail (env : Env) (tvp title : String) (image : Option String) :
    List Call × Except PError Unit :=
  match upload_video_to_vimeo env tvp title with
  | (cs, Except.error e) => (cs, Except.error e)
  | (cs, Except.ok uri) =>
    match image with
    | some img =>
      if img = "" then (cs, Except.ok ())
      else (cs ++ [Call.upload_picture uri img],
            if env.picture_ok then Except.ok ()
            else Except.error PError.pictureError)
    | none => (cs, Except.ok ())

/-- The mkdir guard at Driver.process lines 91-93, prepended to the rest of
the run. -/
def with_mkdir (env : Env) (dir : String) (r : List Call × Except PError Unit) :
    List Call × Except PError Unit :=
  ((if env.fs dir then [] else [Call.mkdir dir]) ++ r.1, r.2)

/-- The per-video working directory base/video_id (Driver.process lines 89-90). -/
def video_dir_of (adc : AppDirectoryConfiguration) (vc : VideoConfiguration) : String :=
  path_join adc.videos_dir vc.video_id

/-- The download stage with the arguments Driver.process passes it. -/
def stage_download (env : Env) (adc : AppDirectoryConfiguration)
    (vc : VideoConfiguration) : List Call × Except PError Unit :=
  download_stage env (video_dir_of adc vc) (get_youtube_url vc.video_id)
    (video_stream_name vc.resolution) (audio_stream_name vc.resolution)
    vc.resolution (artifact_paths adc.videos_dir vc).1
    (artifact_paths adc.videos_dir vc).2.1

/-- The merge stage with the arguments Driver.process passes it. -/
def stage_join (env : Env) (adc : AppDirectoryConfiguration)
    (vc : VideoConfiguration) : List Call × Except PError Unit :=
  join_stage env (artifact_paths adc.videos_dir vc).1
    (artifact_paths adc.videos_dir vc).2.1
    (artifact_paths adc.videos_dir vc).2.2.1

/-- The trim stage with the arguments Driver.process passes it. -/
def stage_trim (env : Env) (adc : AppDirectoryConfiguration)
    (vc : VideoConfiguration) : List Call × Except PError Unit :=
  trim_stage env (artifact_paths adc.videos_dir vc).2.2.1
    (artifact_paths adc.videos_dir vc).2.2.2
    vc.start_time_in_sec vc.end_time_in_sec

/-- The upload and thumbnail stages with the arguments Driver.process passes. -/
def stage_upload (env : Env) (adc : AppDirectoryConfiguration)
    (vc : VideoConfiguration) : List Call × Except PError Unit :=
  upload_and_thumbnail env (artifact_paths adc.videos_dir vc).2.2.2
    (resolve_title vc.video_title env.today) vc.image_url

/-- In a given run, the upload stage was reached (the download, merge and trim
stages all returned normally) and upload_video_to_vimeo succeeded, returning a
non-None resource uri. -/
def upload_stage_returned_uri (env : Env) (adc : AppDirectoryConfiguration)
    (vc : VideoConfiguration) : Prop :=
  (stage_download env adc vc).2 = Except.ok () ∧
  (stage_join env adc vc).2 = Except.ok () ∧
  (stage_trim env adc vc).2 = Except.ok () ∧
  ∃ uri, (upload_video_to_vimeo env (artifact_paths adc.videos_dir vc).2.2.2
    (resolve_title vc.video_title env.today)).2 = Except.ok uri

/-- Driver.process (lines 63-149): title sanitization, artifact path
computation, then the download, merge, trim, upload and thumbnail stages in
sequence with existence-check skipping.  When app_directory_config is None the
attribute access self.app_directory_config.videos_dir raises before any
collaborator is invoked. -/
def Driver.process (d : Driver) (env : Env) (vc : VideoConfiguration) :
    List Call × Except PError Unit :=
  match d.app_directory_config with
  | none => ([], Except.error PError.attributeError)
  | some adc =>
    with_mkdir env (video_dir_of adc vc)
      (pipe (stage_download env adc vc)
        (pipe (stage_join env adc vc)
          (pipe (stage_trim env adc vc) (stage_upload env adc vc))))

/-- Recognizer for download-collaborator calls in a trace. -/
def isDownload : Call → Bool
  | Call.download_youtube_resources _ _ _ _ _ => true
  | _ => false

/-- Recognizer for merge-collaborator calls in a trace. -/
def isJoin : Call → Bool
  | Call.join_resource _ _ _ => true
  | _ => false

/-- Recognizer for trim-collaborator calls in a trace. -/
def isTrim : Call → Bool
  | Call.trim_resource _ _ _ _ => true
  | _ => false

/-- Recognizer for upload-collaborator calls in a trace. -/
def isUpload : Call → Bool
  | Call.upload _ _ => true
  | _ => false

/-- Recognizer for thumbnail-attach calls in a trace. -/
def isUploadPicture : Call → Bool
  | Call.upload_picture _ _ => true
  | _ => false

/-- Outcome of one CLI invocation of main. -/
inductive MainOutcome where
  /-- sys.exit with the given status code. -/
  | exitCode (n : Nat)
  /-- main returned normally. -/
  | completed
  /-- an exception propagated unhandled out of main. -/
  | unhandled (e : PError)
deriving DecidableEq, Repr

/-- main (lines 246-299).  Request construction happens in
get_video_configuration (core/util.py, absent from src); its outcome is passed
in as an Except whose error case stands for the caught exception types.  On
construction failure main logs and calls sys.exit(1); otherwise it constructs
Driver(vimeo_config, None) and calls process, with no handler around it, so a
pipeline exception propagates unhandled. -/
def driver_main (request_result : Except Unit VideoConfiguration)
    (vimeo_config : VimeoConfiguration) (env : Env) : MainOutcome :=
  match request_result with
  | Except.error _ => MainOutcome.exitCode 1
  | Except.ok vc =>
    match (Driver.process { vimeo_config := vimeo_config,
                            app_directory_config := none } env vc).2 with
    | Except.ok _ => MainOutcome.completed
    | Except.error e => MainOutcome.unhandled e

/-- A concrete environment for witnesses: empty local storage, every
collaborator succeeds, the upload returns a concrete uri. -/
def envW : Env :=
  { fs := fun _ => false, today := "10/12/26", download_ok := true,
    join_ok := true, trim_ok := true, upload_ok := true,
    upload_uri := some "/videos/99", get_ok := true, picture_ok := true }

/-- A concrete environment for witnesses in which every artifact already
exists on local storage. -/
def envWAll : Env :=
  { fs := fun _ => true, today := "10/12/26", download_ok := true,
    join_ok := true, trim_ok := true, upload_ok := true,
    upload_uri := some "/videos/99", get_ok := true, picture_ok := true }

/-- A concrete request for witnesses. -/
def vcW : VideoConfiguration :=
  { video_id := "abc123", start_time_in_sec := 10, end_time_in_sec := 20,
    image_url := some "thumb.jpg", resolution := "1080p",
    video_title := some "My Title" }

/-- A concrete driver for witnesses, with a set working directory. -/
def drvW : Driver :=
  { vimeo_config := { token := "tok", key := "key", secret := "sec" },
    app_directory_config := some { videos_dir := "videos" } }

def vimW : VimeoConfiguration := { token := "tok", key := "key", secret := "sec" }

def adcW : AppDirectoryConfiguration := { videos_dir := "videos" }

/-- A second concrete request for witnesses: same identifier, resolution and
time range as vcW but different title and thumbnail. -/
def vcW2 : VideoConfiguration :=
  { video_id := "abc123", start_time_in_sec := 10, end_time_in_sec := 20,
    image_url := none, resolution := "1080p", video_title := none }

/-- A third concrete request for witnesses: same identifier and resolution as
vcW but a different time range. -/
def vcW3 : VideoConfiguration :=
  { video_id := "abc123", start_time_in_sec := 30, end_time_in_sec := 45,
    image_url := some "thumb.jpg", resolution := "1080p",
    video_title := some "My Title" }

theorem process_some_eq (v : VimeoConfiguration) (adc : AppDirectoryConfiguration)
    (env : Env) (vc : VideoConfiguration) :
    Driver.process ⟨v, some adc⟩ env vc =
      with_mkdir env (video_dir_of adc vc)
        (pipe (stage_download env adc vc)
          (pipe (stage_join env adc vc)
            (pipe (stage_trim env adc vc) (stage_upload env adc vc)))) := rfl

theorem with_mkdir_snd (env : Env) (dir : String) (r : List Call × Except PError Unit) :
    (with_mkdir env dir r).2 = r.2 := rfl

theorem with_mkdir_countP (env : Env) (dir : String) (r : List Call × Except PError Unit)
    (p : Call → Bool) (hm : ∀ x, p (Call.mkdir x) = false) :
    (with_mkdir env dir r).1.countP p = r.1.countP p := by
  unfold with_mkdir
  simp only [List.countP_append]
  split <;> simp [hm]

theorem with_mkdir_mem (env : Env) (dir : String) (r : List Call × Except PError Unit)
    (c : Call) (hc : c ∈ r.1) : c ∈ (with_mkdir env dir r).1 := by
  unfold with_mkdir
  exact List.mem_append_right _ hc

theorem pipe_snd (r k : List Call × Except PError Unit) :
    (pipe r k).2 = match r.2 with
      | Except.ok _ => k.2
      | Except.error e => Except.error e := by
  unfold pipe
  rcases r with ⟨cs, res⟩
  cases res <;> rfl

theorem pipe_countP_of_left_zero (r k : List Call × Except PError Unit)
    (p : Call → Bool) (hr : r.1.countP p = 0) :
    (pipe r k).1.countP p = match r.2 with
      | Except.ok _ => k.1.countP p
      | Except.error _ => 0 := by
  unfold pipe
  rcases r with ⟨cs, res⟩
  cases res <;> simp_all [List.countP_append]

theorem pipe_ok_mem (r k : List Call × Except PError Unit) (c : Call)
    (hr : r.2 = Except.ok ()) (hc : c ∈ k.1) : c ∈ (pipe r k).1 := by
  unfold pipe
  rw [hr]
  exact List.mem_append_right _ hc

theorem stage_result_cases (r : List Call × Except PError Unit) :
    r.2 = Except.ok () ∨ ∃ e, r.2 = Except.error e := by
  rcases r with ⟨cs, res⟩
  cases res with
  | error e => exact Or.inr ⟨e, rfl⟩
  | ok u => exact Or.inl rfl

theorem download_stage_skip (env : Env) (a b c d e f g : String)
    (h1 : env.fs f = true) (h2 : env.fs g = true) :
    download_stage env a b c d e f g = ([], Except.ok ()) := by
  unfold download_stage
  simp [h1, h2]

theorem join_stage_skip (env : Env) (a b c : String) (h : env.fs c = true) :
    join_stage env a b c = ([], Except.ok ()) := by
  unfold join_stage
  simp [h]

theorem trim_stage_skip (env : Env) (a b : String) (s e : Nat)
    (h : env.fs b = true) : trim_stage env a b s e = ([], Except.ok ()) := by
  unfold trim_stage
  simp [h]

theorem download_stage_countP (env : Env) (a b c d e f g : String) (p : Call → Bool)
    (hp : ∀ x1 x2 x3 x4 x5, p (Call.download_youtube_resources x1 x2 x3 x4 x5) = false) :
    (download_stage env a b c d e f g).1.countP p = 0 := by
  unfold download_stage
  split <;> simp [hp]

theorem join_stage_countP (env : Env) (a b c : String) (p : Call → Bool)
    (hp : ∀ x1 x2 x3, p (Call.join_resource x1 x2 x3) = false) :
    (join_stage env a b c).1.countP p = 0 := by
  unfold join_stage
  split <;> simp [hp]

theorem trim_stage_countP (env : Env) (a b : String) (s e : Nat) (p : Call → Bool)
    (hp : ∀ x1 x2 y1 y2, p (Call.trim_resource x1 x2 y1 y2) = false) :
    (trim_stage env a b s e).1.countP p = 0 := by
  unfold trim_stage
  split <;> simp [hp]

theorem upload_and_thumbnail_countP (env : Env) (tvp title : String)
    (image : Option String) (p : Call → Bool)
    (hp1 : ∀ x1 x2, p (Call.upload x1 x2) = false)
    (hp2 : ∀ x, p (Call.get_transcode_status x) = false)
    (hp3 : ∀ x1 x2, p (Call.upload_picture x1 x2) = false) :
    (upload_and_thumbnail env tvp title image).1.countP p = 0 := by
  unfold upload_and_thumbnail upload_video_to_vimeo
  cases hok : env.upload_ok with
  | false => simp [hp1]
  | true =>
    cases huri : env.upload_uri with
    | none => simp [hp1]
    | some uri =>
      cases hget : env.get_ok with
      | false => simp [hp1, hp2]
      | true =>
        cases image with
        | none => simp [hp1, hp2]
        | some img =>
          by_cases himg : img = "" <;> simp [himg, hp1, hp2, hp3]

theorem upload_and_thumbnail_upload_count (env : Env) (tvp title : String)
    (image : Option String) :
    (upload_and_thumbnail env tvp title image).1.countP isUpload = 1 := by
  unfold upload_and_thumbnail upload_video_to_vimeo
  cases hok : env.upload_ok with
  | false => simp [isUpload]
  | true =>
    cases huri : env.upload_uri with
    | none => simp [isUpload]
    | some uri =>
      cases hget : env.get_ok with
      | false => simp [isUpload]
      | true =>
        cases image with
        | none => simp [isUpload]
        | some img =>
          by_cases himg : img = "" <;> simp [himg, isUpload]

theorem upload_and_thumbnail_mem_upload (env : Env) (tvp title : String)
    (image : Option String) :
    Call.upload tvp title ∈ (upload_and_thumbnail env tvp title image).1 := by
  unfold upload_and_thumbnail upload_video_to_vimeo
  cases hok : env.upload_ok with
  | false => simp
  | true =>
    cases huri : env.upload_uri with
    | none => simp
    | some uri =>
      cases hget : env.get_ok with
      | false => simp
      | true =>
        cases image with
        | none => simp
        | some img =>
          by_cases himg : img = "" <;> simp [himg]

theorem upload_and_thumbnail_picture (env : Env) (tvp title img : String)
    (hne : img ≠ "") :
    ((∃ uri, (upload_video_to_vimeo env tvp title).2 = Except.ok uri) ↔
      (upload_and_thumbnail env tvp title (some img)).1.countP isUploadPicture = 1) ∧
    ((¬ ∃ uri, (upload_video_to_vimeo env tvp title).2 = Except.ok uri) →
      (upload_and_thumbnail env tvp title (some img)).1.countP isUploadPicture = 0) := by
  unfold upload_and_thumbnail upload_video_to_vimeo
  cases hok : env.upload_ok with
  | false => simp [isUploadPicture]
  | true =>
    cases huri : env.upload_uri with
    | none => simp [isUploadPicture]
    | some uri =>
      cases hget : env.get_ok with
      | false => simp [isUploadPicture]
      | true => simp [hne, isUploadPicture]

theorem upload_video_to_vimeo_fail (env : Env) (vp t : String)
    (hup : env.upload_ok = false) :
    (upload_video_to_vimeo env vp t).2 = Except.error PError.videoUploadFailure := by
  unfold upload_video_to_vimeo
  rw [hup]
  rfl

theorem process_some_countP (v : VimeoConfiguration) (adc : AppDirectoryConfiguration)
    (env : Env) (vc : VideoConfiguration) (p : Call → Bool)
    (hm : ∀ x, p (Call.mkdir x) = false)
    (h1 : (stage_download env adc vc).1.countP p = 0)
    (h2 : (stage_join env adc vc).1.countP p = 0)
    (h3 : (stage_trim env adc vc).1.countP p = 0)
    (h4 : (stage_upload env adc vc).1.countP p = 0) :
    (Driver.process ⟨v, some adc⟩ env vc).1.countP p = 0 := by
  rw [process_some_eq]
  rw [with_mkdir_countP _ _ _ _ hm]
  rw [pipe_countP_of_left_zero _ _ _ h1]
  rcases stage_result_cases (stage_download env adc vc) with hr | ⟨e, hr⟩ <;>
    simp only [hr]
  rw [pipe_countP_of_left_zero _ _ _ h2]
  rcases stage_result_cases (stage_join env adc vc) with hr2 | ⟨e, hr2⟩ <;>
    simp only [hr2]
  rw [pipe_countP_of_left_zero _ _ _ h3]
  rcases stage_result_cases (stage_trim env adc vc) with hr3 | ⟨e, hr3⟩ <;>
    simp only [hr3]
  exact h4

theorem string_append_assoc (a b c : String) : (a ++ b) ++ c = a ++ (b ++ c) := by
  rcases a with ⟨a⟩
  rcases b with ⟨b⟩
  rcases c with ⟨c⟩
  show String.mk ((a ++ b) ++ c) = String.mk (a ++ (b ++ c))
  rw [List.append_assoc]

theorem process_all_skipped (v : VimeoConfiguration) (adc : AppDirectoryConfiguration)
    (env : Env) (vc : VideoConfiguration)
    (h1 : env.fs (artifact_paths adc.videos_dir vc).1 = true)
    (h2 : env.fs (artifact_paths adc.videos_dir vc).2.1 = true)
    (h3 : env.fs (artifact_paths adc.videos_dir vc).2.2.1 = true)
    (h4 : env.fs (artifact_paths adc.videos_dir vc).2.2.2 = true) :
    Driver.process ⟨v, some adc⟩ env vc =
      with_mkdir env (video_dir_of adc vc) (stage_upload env adc vc) := by
  rw [process_some_eq]
  unfold stage_download stage_join stage_trim
  rw [download_stage_skip _ _ _ _ _ _ _ _ h1 h2, join_stage_skip _ _ _ _ h3,
      trim_stage_skip _ _ _ _ _ h4]
  rfl

/-- C3: with app_directory_config = None (as main constructs the Driver),
process fails at the attribute access computing the per-video working
directory, before any collaborator is invoked: the trace is empty and the
outcome is the propagated AttributeError. -/
theorem process_none_config_fails_before_collaborators (d : Driver) (env : Env)
    (vc : VideoConfiguration) (h : d.app_directory_config = none) :
    Driver.process d env vc = ([], Except.error PError.attributeError) := by
  unfold Driver.process
  rw [h]

/-- Witness for C3 at a concrete driver, environment and request. -/
theorem process_none_config_fails_before_collaborators_witness :
    ({ vimeo_config := { token := "tok", key := "key", secret := "sec" },
       app_directory_config := none } : Driver).app_directory_config = none ∧
    Driver.process { vimeo_config := { token := "tok", key := "key", secret := "sec" },
                     app_directory_config := none } envW vcW =
      ([], Except.error PError.attributeError) :=
  ⟨rfl, process_none_config_fails_before_collaborators _ envW vcW rfl⟩

/-- C4: timestamp conversion maps "01:02:03" to 3723 and "00:00:00" to 0 and
fails on the malformed "abc"; moreover every malformed input fails: whenever a
string does not decompose into exactly three colon-separated all-digit fields,
the conversion is a parsing error, and on every well-formed string whose three
fields parse as naturals h, m, s it yields h*3600 + m*60 + s. -/
theorem get_seconds_spec :
    get_seconds "01:02:03" = some 3723 ∧
    get_seconds "00:00:00" = some 0 ∧
    get_seconds "abc" = none ∧
    (∀ ts : String,
      (¬ ∃ hh mm ss h m s, split_chars ':' ts.data = [hh, mm, ss] ∧
        chars_to_nat? hh = some h ∧ chars_to_nat? mm = some m ∧
        chars_to_nat? ss = some s) →
      get_seconds ts = none) ∧
    (∀ (ts : String) hh mm ss, split_chars ':' ts.data = [hh, mm, ss] →
      ∀ h m s, chars_to_nat? hh = some h → chars_to_nat? mm = some m →
        chars_to_nat? ss = some s →
        get_seconds ts = some (h * 3600 + m * 60 + s)) := by
  refine ⟨by decide, by decide, by decide, ?_, ?_⟩
  · intro ts hmal
    unfold get_seconds
    split
    · rename_i a b c heq
      split
      · rename_i hh mm ss h1 h2 h3
        exact absurd ⟨a, b, c, hh, mm, ss, heq, h1, h2, h3⟩ hmal
      · rfl
    · rfl
  · intro ts hh mm ss hsplit h m s hh1 hm1 hs1
    unfold get_seconds
    rw [hsplit]
    simp [hh1, hm1, hs1]

/-- Witness for C4 at the well-formed string "04:05:06" and the malformed
string "ab:cd". -/
theorem get_seconds_spec_witness :
    split_chars ':' "04:05:06".data = ["04".data, "05".data, "06".data] ∧
    chars_to_nat? "04".data = some 4 ∧ chars_to_nat? "05".data = some 5 ∧
    chars_to_nat? "06".data = some 6 ∧
    get_seconds "04:05:06" = some (4 * 3600 + 5 * 60 + 6) ∧
    get_seconds "ab:cd" = none :=
  ⟨by decide, by decide, by decide, by decide,
   get_seconds_spec.2.2.2.2 "04:05:06" "04".data "05".data "06".data (by decide)
     4 5 6 (by decide) (by decide) (by decide),
   get_seconds_spec.2.2.2.1 "ab:cd" (by
     rintro ⟨hh, mm, ss, h, m, s, heq, hrest⟩
     rw [show split_chars ':' "ab:cd".data =
       [String.data "ab", String.data "cd"] by decide] at heq
     simp at heq)⟩

/-- C1: on a fresh run with start 10 and end 20, the single trim call passes
seek offset 10 and duration t = 20 — the end-second itself — whereas the
claimed duration end minus start is 10.  The code passes end_time_in_sec as
the duration parameter. -/
theorem trim_duration_is_end_second_not_difference :
    (Driver.process drvW envW vcW).1.countP isTrim = 1 ∧
    Call.trim_resource "videos/abc123/combined_1080p.mp4"
        "videos/abc123/10_20_1080p.mp4" 10 20 ∈ (Driver.process drvW envW vcW).1 ∧
    vcW.end_time_in_sec ≠ vcW.end_time_in_sec - vcW.start_time_in_sec := by
  decide

/-- C9: when request construction fails, driver_main exits with status code 1;
when construction succeeds, no exit code is set on pipeline failure — the
pipeline error (here the AttributeError from the None directory
configuration) propagates unhandled. -/
theorem driver_main_exit_behavior :
    (∀ (v : VimeoConfiguration) (env : Env) (e : Unit),
      driver_main (Except.error e) v env = MainOutcome.exitCode 1) ∧
    (∀ (v : VimeoConfiguration) (env : Env) (vc : VideoConfiguration),
      driver_main (Except.ok vc) v env = MainOutcome.unhandled PError.attributeError) := by
  constructor
  · intro v env e
    rfl
  · intro v env vc
    rfl

/-- C7: if the combined artifact already exists on local storage, process does
not invoke the merge collaborator: the join_resource call count is zero. -/
theorem combined_exists_join_skipped (v : VimeoConfiguration)
    (adc : AppDirectoryConfiguration) (env : Env) (vc : VideoConfiguration)
    (hc : env.fs (artifact_paths adc.videos_dir vc).2.2.1 = true) :
    (Driver.process ⟨v, some adc⟩ env vc).1.countP isJoin = 0 :=
  process_some_countP v adc env vc isJoin (fun _ => rfl)
    (by unfold stage_download
        exact download_stage_countP _ _ _ _ _ _ _ _ _ (fun _ _ _ _ _ => rfl))
    (by unfold stage_join
        rw [join_stage_skip _ _ _ _ hc]
        rfl)
    (by unfold stage_trim
        exact trim_stage_countP _ _ _ _ _ _ (fun _ _ _ _ => rfl))
    (by unfold stage_upload
        exact upload_and_thumbnail_countP _ _ _ _ _ (fun _ _ => rfl) (fun _ => rfl)
          (fun _ _ => rfl))

/-- Witness for C7: every artifact exists, the merge collaborator is not
invoked. -/
theorem combined_exists_join_skipped_witness :
    envWAll.fs (artifact_paths adcW.videos_dir vcW).2.2.1 = true ∧
    (Driver.process ⟨vimW, some adcW⟩ envWAll vcW).1.countP isJoin = 0 :=
  ⟨rfl, combined_exists_join_skipped vimW adcW envWAll vcW rfl⟩

/-- C2 counterexample: with every artifact (including the trimmed one, the
upload stage's input) already present on local storage, process still invokes
the upload collaborator, so the upload stage is not skipped on re-run. -/
theorem upload_stage_not_skipped_counterexample :
    envWAll.fs (artifact_paths adcW.videos_dir vcW).1 = true ∧
    envWAll.fs (artifact_paths adcW.videos_dir vcW).2.1 = true ∧
    envWAll.fs (artifact_paths adcW.videos_dir vcW).2.2.1 = true ∧
    envWAll.fs (artifact_paths adcW.videos_dir vcW).2.2.2 = true ∧
    ¬ ((Driver.process ⟨vimW, some adcW⟩ envWAll vcW).1.countP isUpload = 0) := by
  decide

/-- C2 (amended): the download, merge and trim stages are individually skipped
when their output artifacts already exist on local storage (download requires
both the video-stream and audio-stream artifacts); the upload stage is not
skippable — even with every artifact present the upload collaborator is still
invoked, exactly once. -/
theorem stages_skippable_except_upload (v : VimeoConfiguration)
    (adc : AppDirectoryConfiguration) (env : Env) (vc : VideoConfiguration) :
    (env.fs (artifact_paths adc.videos_dir vc).1 = true →
      env.fs (artifact_paths adc.videos_dir vc).2.1 = true →
      (Driver.process ⟨v, some adc⟩ env vc).1.countP isDownload = 0) ∧
    (env.fs (artifact_paths adc.videos_dir vc).2.2.1 = true →
      (Driver.process ⟨v, some adc⟩ env vc).1.countP isJoin = 0) ∧
    (env.fs (artifact_paths adc.videos_dir vc).2.2.2 = true →
      (Driver.process ⟨v, some adc⟩ env vc).1.countP isTrim = 0) ∧
    (env.fs (artifact_paths adc.videos_dir vc).1 = true →
      env.fs (artifact_paths adc.videos_dir vc).2.1 = true →
      env.fs (artifact_paths adc.videos_dir vc).2.2.1 = true →
      env.fs (artifact_paths adc.videos_dir vc).2.2.2 = true →
      (Driver.process ⟨v, some adc⟩ env vc).1.countP isUpload = 1) := by
  refine ⟨?_, ?_, ?_, ?_⟩
  · intro hv ha
    refine process_some_countP v adc env vc isDownload (fun _ => rfl) ?_ ?_ ?_ ?_
    · unfold stage_download
      rw [download_stage_skip _ _ _ _ _ _ _ _ hv ha]
      rfl
    · unfold stage_join
      exact join_stage_countP _ _ _ _ _ (fun _ _ _ => rfl)
    · unfold stage_trim
      exact trim_stage_countP _ _ _ _ _ _ (fun _ _ _ _ => rfl)
    · unfold stage_upload
      exact upload_and_thumbnail_countP _ _ _ _ _ (fun _ _ => rfl) (fun _ => rfl)
        (fun _ _ => rfl)
  · intro hc
    refine process_some_countP v adc env vc isJoin (fun _ => rfl) ?_ ?_ ?_ ?_
    · unfold stage_download
      exact download_stage_countP _ _ _ _ _ _ _ _ _ (fun _ _ _ _ _ => rfl)
    · unfold stage_join
      rw [join_stage_skip _ _ _ _ hc]
      rfl
    · unfold stage_trim
      exact trim_stage_countP _ _ _ _ _ _ (fun _ _ _ _ => rfl)
    · unfold stage_upload
      exact upload_and_thumbnail_countP _ _ _ _ _ (fun _ _ => rfl) (fun _ => rfl)
        (fun _ _ => rfl)
  · intro ht
    refine process_some_countP v adc env vc isTrim (fun _ => rfl) ?_ ?_ ?_ ?_
    · unfold stage_download
      exact download_stage_countP _ _ _ _ _ _ _ _ _ (fun _ _ _ _ _ => rfl)
    · unfold stage_join
      exact join_stage_countP _ _ _ _ _ (fun _ _ _ => rfl)
    · unfold stage_trim
      rw [trim_stage_skip _ _ _ _ _ ht]
      rfl
    · unfold stage_upload
      exact upload_and_thumbnail_countP _ _ _ _ _ (fun _ _ => rfl) (fun _ => rfl)
        (fun _ _ => rfl)
  · intro hv ha hc ht
    rw [process_all_skipped v adc env vc hv ha hc ht]
    rw [with_mkdir_countP _ _ _ _ (fun _ => rfl)]
    unfold stage_upload
    exact upload_and_thumbnail_upload_count _ _ _ _

/-- Witness for C2 (amended) with every artifact present on local storage. -/
theorem stages_skippable_except_upload_witness :
    envWAll.fs (artifact_paths adcW.videos_dir vcW).1 = true ∧
    envWAll.fs (artifact_paths adcW.videos_dir vcW).2.1 = true ∧
    envWAll.fs (artifact_paths adcW.videos_dir vcW).2.2.1 = true ∧
    envWAll.fs (artifact_paths adcW.videos_dir vcW).2.2.2 = true ∧
    (Driver.process ⟨vimW, some adcW⟩ envWAll vcW).1.countP isDownload = 0 ∧
    (Driver.process ⟨vimW, some adcW⟩ envWAll vcW).1.countP isTrim = 0 ∧
    (Driver.process ⟨vimW, some adcW⟩ envWAll vcW).1.countP isUpload = 1 :=
  ⟨rfl, rfl, rfl, rfl,
   (stages_skippable_except_upload vimW adcW envWAll vcW).1 rfl rfl,
   (stages_skippable_except_upload vimW adcW envWAll vcW).2.2.1 rfl,
   (stages_skippable_except_upload vimW adcW envWAll vcW).2.2.2 rfl rfl rfl rfl⟩

/-- C5: with the pipeline reaching the upload (here: every artifact already
present), a non-empty supplied title is passed to the upload unchanged, and an
absent or empty title is replaced by "(CW) " followed by the current date
formatted MM/DD/YY. -/
theorem title_defaulting (v : VimeoConfiguration) (adc : AppDirectoryConfiguration)
    (env : Env) (vc : VideoConfiguration)
    (h1 : env.fs (artifact_paths adc.videos_dir vc).1 = true)
    (h2 : env.fs (artifact_paths adc.videos_dir vc).2.1 = true)
    (h3 : env.fs (artifact_paths adc.videos_dir vc).2.2.1 = true)
    (h4 : env.fs (artifact_paths adc.videos_dir vc).2.2.2 = true) :
    (∀ t, vc.video_title = some t → t ≠ "" →
      Call.upload (artifact_paths adc.videos_dir vc).2.2.2 t
        ∈ (Driver.process ⟨v, some adc⟩ env vc).1) ∧
    ((vc.video_title = none ∨ vc.video_title = some "") →
      Call.upload (artifact_paths adc.videos_dir vc).2.2.2 ("(CW) " ++ env.today)
        ∈ (Driver.process ⟨v, some adc⟩ env vc).1) := by
  rw [process_all_skipped v adc env vc h1 h2 h3 h4]
  constructor
  · intro t ht hne
    apply with_mkdir_mem
    unfold stage_upload
    rw [show resolve_title vc.video_title env.today = t by
      rw [ht]; simp [resolve_title, hne]]
    exact upload_and_thumbnail_mem_upload _ _ _ _
  · intro hd
    apply with_mkdir_mem
    unfold stage_upload
    rw [show resolve_title vc.video_title env.today = "(CW) " ++ env.today by
      rcases hd with hd | hd <;> rw [hd] <;> simp [resolve_title]]
    exact upload_and_thumbnail_mem_upload _ _ _ _

/-- Witness for C5: a supplied non-empty title appears on the upload call. -/
theorem title_defaulting_witness :
    envWAll.fs (artifact_paths adcW.videos_dir vcW).1 = true ∧
    envWAll.fs (artifact_paths adcW.videos_dir vcW).2.1 = true ∧
    envWAll.fs (artifact_paths adcW.videos_dir vcW).2.2.1 = true ∧
    envWAll.fs (artifact_paths adcW.videos_dir vcW).2.2.2 = true ∧
    vcW.video_title = some "My Title" ∧ "My Title" ≠ "" ∧
    Call.upload (artifact_paths adcW.videos_dir vcW).2.2.2 "My Title"
      ∈ (Driver.process ⟨vimW, some adcW⟩ envWAll vcW).1 :=
  ⟨rfl, rfl, rfl, rfl, rfl, by decide,
   (title_defaulting vimW adcW envWAll vcW rfl rfl rfl rfl).1 "My Title" rfl
     (by decide)⟩

/-- C6: when a thumbnail path is supplied (non-empty), the thumbnail-attach
collaborator is invoked (exactly once) if and only if the upload stage,
reached in the run, succeeded and returned a non-None resource uri; in every
other run the thumbnail-attach call count is zero — in particular whenever
the upload collaborator fails.  A thumbnail-attach failure can itself occur,
but only after the collaborator was invoked. -/
theorem thumbnail_attach_iff_upload_success (v : VimeoConfiguration)
    (adc : AppDirectoryConfiguration) (env : Env) (vc : VideoConfiguration)
    (img : String) (hi : vc.image_url = some img) (hne : img ≠ "") :
    (upload_stage_returned_uri env adc vc ↔
      (Driver.process ⟨v, some adc⟩ env vc).1.countP isUploadPicture = 1) ∧
    (¬ upload_stage_returned_uri env adc vc →
      (Driver.process ⟨v, some adc⟩ env vc).1.countP isUploadPicture = 0) ∧
    (env.upload_ok = false →
      (Driver.process ⟨v, some adc⟩ env vc).1.countP isUploadPicture = 0) := by
  unfold upload_stage_returned_uri
  rw [process_some_eq, with_mkdir_countP _ _ _ _ (fun _ => rfl)]
  rw [pipe_countP_of_left_zero _ _ _
    (by unfold stage_download
        exact download_stage_countP _ _ _ _ _ _ _ _ _ (fun _ _ _ _ _ => rfl))]
  rcases stage_result_cases (stage_download env adc vc) with hr | ⟨e, hr⟩ <;>
    simp only [hr]
  swap
  · simp
  rw [pipe_countP_of_left_zero _ _ _
    (by unfold stage_join
        exact join_stage_countP _ _ _ _ _ (fun _ _ _ => rfl))]
  rcases stage_result_cases (stage_join env adc vc) with hr2 | ⟨e2, hr2⟩ <;>
    simp only [hr2]
  swap
  · simp
  rw [pipe_countP_of_left_zero _ _ _
    (by unfold stage_trim
        exact trim_stage_countP _ _ _ _ _ _ (fun _ _ _ _ => rfl))]
  rcases stage_result_cases (stage_trim env adc vc) with hr3 | ⟨e3, hr3⟩ <;>
    simp only [hr3]
  swap
  · simp
  unfold stage_upload
  rw [hi]
  obtain ⟨hiff, hzero⟩ := upload_and_thumbnail_picture env
    (artifact_paths adc.videos_dir vc).2.2.2
    (resolve_title vc.video_title env.today) img hne
  refine ⟨by simpa using hiff, ?_, ?_⟩
  · intro hn
    exact hzero (fun hex => hn ⟨trivial, trivial, trivial, hex⟩)
  · intro hup
    refine hzero ?_
    rintro ⟨uri, hu⟩
    rw [upload_video_to_vimeo_fail env _ _ hup] at hu
    cases hu

/-- Witness for C6 on a fresh run where every collaborator succeeds. -/
theorem thumbnail_attach_iff_upload_success_witness :
    vcW.image_url = some "thumb.jpg" ∧ "thumb.jpg" ≠ "" ∧
    ((upload_stage_returned_uri envW adcW vcW ↔
       (Driver.process ⟨vimW, some adcW⟩ envW vcW).1.countP isUploadPicture = 1) ∧
     (¬ upload_stage_returned_uri envW adcW vcW →
       (Driver.process ⟨vimW, some adcW⟩ envW vcW).1.countP isUploadPicture = 0) ∧
     (envW.upload_ok = false →
       (Driver.process ⟨vimW, some adcW⟩ envW vcW).1.countP isUploadPicture = 0)) :=
  ⟨rfl, by decide,
   thumbnail_attach_iff_upload_success vimW adcW envW vcW "thumb.jpg" rfl (by decide)⟩

/-- C8: the four artifact paths are a pure function of the video identifier,
resolution, start-second and end-second: any two requests agreeing on those
four inputs (whatever their titles or thumbnails) yield identical
video-stream, audio-stream, combined and trimmed paths. -/
theorem artifact_paths_deterministic (base : String) (vc1 vc2 : VideoConfiguration)
    (hid : vc1.video_id = vc2.video_id) (hres : vc1.resolution = vc2.resolution)
    (hs : vc1.start_time_in_sec = vc2.start_time_in_sec)
    (he : vc1.end_time_in_sec = vc2.end_time_in_sec) :
    artifact_paths base vc1 = artifact_paths base vc2 := by
  unfold artifact_paths
  rw [hid, hres, hs, he]

/-- Witness for C8: two requests equal on the four path inputs but differing
in title and thumbnail compute equal artifact paths. -/
theorem artifact_paths_deterministic_witness :
    vcW.video_id = vcW2.video_id ∧ vcW.resolution = vcW2.resolution ∧
    vcW.start_time_in_sec = vcW2.start_time_in_sec ∧
    vcW.end_time_in_sec = vcW2.end_time_in_sec ∧
    artifact_paths adcW.videos_dir vcW = artifact_paths adcW.videos_dir vcW2 :=
  ⟨rfl, rfl, rfl, rfl,
   artifact_paths_deterministic adcW.videos_dir vcW vcW2 rfl rfl rfl rfl⟩

/-- C10: two requests agreeing on identifier and resolution but differing in
start-second or end-second share the video-stream, audio-stream and combined
paths; only the trimmed path carries the time range, encoded as the filename
prefix start_end_. -/
theorem only_trimmed_path_depends_on_times (base : String)
    (vc1 vc2 : VideoConfiguration)
    (hid : vc1.video_id = vc2.video_id) (hres : vc1.resolution = vc2.resolution)
    (hne : vc1.start_time_in_sec ≠ vc2.start_time_in_sec ∨
      vc1.end_time_in_sec ≠ vc2.end_time_in_sec) :
    (artifact_paths base vc1).1 = (artifact_paths base vc2).1 ∧
    (artifact_paths base vc1).2.1 = (artifact_paths base vc2).2.1 ∧
    (artifact_paths base vc1).2.2.1 = (artifact_paths base vc2).2.2.1 ∧
    (artifact_paths base vc1).2.2.2 =
      path_join (path_join base vc1.video_id)
        ((toString vc1.start_time_in_sec ++ "_" ++ toString vc1.end_time_in_sec ++ "_")
          ++ (vc1.resolution ++ ".mp4")) ∧
    (artifact_paths base vc2).2.2.2 =
      path_join (path_join base vc2.video_id)
        ((toString vc2.start_time_in_sec ++ "_" ++ toString vc2.end_time_in_sec ++ "_")
          ++ (vc2.resolution ++ ".mp4")) := by
  unfold artifact_paths
  refine ⟨by rw [hid, hres], by rw [hid, hres], by rw [hid, hres], ?_, ?_⟩ <;>
    simp [trimmed_video_name, string_append_assoc]

/-- Witness for C10 at two concrete requests sharing identifier and
resolution with different time ranges. -/
theorem only_trimmed_path_depends_on_times_witness :
    vcW.video_id = vcW3.video_id ∧ vcW.resolution = vcW3.resolution ∧
    (vcW.start_time_in_sec ≠ vcW3.start_time_in_sec ∨
      vcW.end_time_in_sec ≠ vcW3.end_time_in_sec) ∧
    (artifact_paths adcW.videos_dir vcW).1 = (artifact_paths adcW.videos_dir vcW3).1 ∧
    (artifact_paths adcW.videos_dir vcW).2.2.1 =
      (artifact_paths adcW.videos_dir vcW3).2.2.1 ∧
    (artifact_paths adcW.videos_dir vcW).2.2.2 =
      path_join (path_join adcW.videos_dir vcW.video_id)
        ((toString vcW.start_time_in_sec ++ "_" ++ toString vcW.end_time_in_sec ++ "_")
          ++ (vcW.resolution ++ ".mp4")) :=
  ⟨rfl, rfl, Or.inl (by decide),
   (only_trimmed_path_depends_on_times adcW.videos_dir vcW vcW3 rfl rfl
     (Or.inl (by decide))).1,
   (only_trimmed_path_depends_on_times adcW.videos_dir vcW vcW3 rfl rfl
     (Or.inl (by decide))).2.2.1,
   (only_trimmed_path_depends_on_times adcW.videos_dir vcW vcW3 rfl rfl
     (Or.inl (by decide))).2.2.2.1⟩
